import Mathlib

set_option maxRecDepth 4000

/-!
Shallow embedding of the proofing-cabinet controller (`src/proofingbox.ino`).

Conventions used throughout:
* C `float` values (temperatures, `MaxHeaterOnTime`) are modelled as exact
  rationals `ℚ`; the claims under study concern the control logic, not
  floating-point rounding.
* `millis()` values are `ℕ`, reduced modulo `2 ^ 32` wherever the C code
  performs `unsigned long` arithmetic that can wrap.
* The source drives global mutable variables; here all of them are fields of
  a single `SysState` record that every operation threads explicitly.
* `digitalWrite` calls are recorded as an emitted list of `PinWrite` events,
  and `tone`/`delay` calls in the abort loop as `Event`s.
* `missionAbort` never returns in the source (infinite alert loop); following
  the design note of the specification it is modelled as a terminal `halted`
  state: once `halted` is set, a system step only re-emits the alert burst
  and leaves the state untouched.
-/

/-- Relay command values, `#define ON 0` / `#define OFF 1` in the source. -/
inductive Status where
  | ON : Status
  | OFF : Status
deriving DecidableEq, Repr

/-- Numeric value written to a relay pin for a given status
(`ON = 0`, `OFF = 1` as in the source defines). -/
def Status.code : Status → ℕ
  | Status.ON => 0
  | Status.OFF => 1

/-- The five fault conditions detected by `safetyCheck`. -/
inductive Fault where
  | SensorFault : Fault
  | HeaterTimeout : Fault
  | OverTemperature : Fault
  | RunTimeExceeded : Fault
  | AmbientOverTemperature : Fault
deriving DecidableEq, Repr

/-- The fault-specific message passed to `missionAbort` in the source. -/
def Fault.message : Fault → String
  | Fault.SensorFault => "E1-no T increase"
  | Fault.HeaterTimeout => "E2-heat time lim"
  | Fault.OverTemperature => "E3-temp too high"
  | Fault.RunTimeExceeded => "E4-timelim excee"
  | Fault.AmbientOverTemperature => "E5-int temp >40C"

/-- One `digitalWrite(pin, val)` call. -/
structure PinWrite where
  pin : ℕ
  val : ℕ
deriving DecidableEq, Repr

/-- Side effects of the abort alert loop: `tone(pin, freq, durMs)` and
`delay(ms)`. -/
inductive Event where
  | tone : ℕ → ℕ → ℕ → Event
  | delayMs : ℕ → Event
deriving DecidableEq, Repr

def HEATER_PIN : ℕ := 4
def PUMP_PIN : ℕ := 6
def BEEP_PIN : ℕ := 7

/-- One iteration of the infinite alert loop in `missionAbort`:
`tone(7, 2000, 1000); delay(15000);`. -/
def alertBurst : List Event := [Event.tone BEEP_PIN 2000 1000, Event.delayMs 15000]

def NumberOfMeasurements : ℕ := 10

/-- Reduction modulo `2 ^ 32`, the behaviour of C `unsigned long`. -/
def u32 (n : ℕ) : ℕ := n % 4294967296

/-- C `unsigned long` subtraction `a - b` (wraps modulo `2 ^ 32`). -/
def usub (a b : ℕ) : ℕ := (u32 a + 4294967296 - u32 b) % 4294967296

/-- All global mutable variables of the sketch, gathered in one record.
The five configuration globals (`MinTemp` .. `MaxRunTime`) are included as
fields because the source declares them as adjustable variables. -/
structure SysState where
  MinTemp : ℤ
  MaxTemp : ℤ
  WaterVolume : ℤ
  PowerHeater : ℤ
  MaxRunTime : ℕ
  TargetTemperature : ℚ
  HeaterStatus : Status
  PumpStatus : Status
  PreviousHeaterStatus : Status
  MaxHeaterOnTime : ℚ
  RunTime : ℕ
  TimeHeaterOn : ℕ
  TimeLastSafetyCheck : ℕ
  Measurements : List ℚ
  SumMeasurements : ℚ
  AverageTemp : ℚ
  TempLastSafetyCheck : ℚ
  IntTemp : ℤ
  lcdHalt : Option (String × String)
  dashboard : Option (ℚ × ℚ × Status × Status × ℕ)
  halted : Option Fault
deriving DecidableEq, Repr

/-- Model of `changeHeaterStatus`: write the heater relay pin, record the status and
reset the heater-on timer to the current `millis()` value. -/
def changeHeaterStatus (s : SysState) (status : Status) (now : ℕ) :
    SysState × List PinWrite :=
  ({ s with HeaterStatus := status, TimeHeaterOn := u32 now },
   [⟨HEATER_PIN, status.code⟩])

/-- Model of `changePumpStatus`: write the pump relay pin and record the status. -/
def changePumpStatus (s : SysState) (status : Status) :
    SysState × List PinWrite :=
  ({ s with PumpStatus := status }, [⟨PUMP_PIN, status.code⟩])

/-- Model of `getTemperature`: evict the oldest of the 10 retained measurements,
shift the array, insert the fresh sensor reading at index 0, update the
running sum incrementally and recompute the exposed average. -/
def getTemperature (s : SysState) (reading : ℚ) : SysState :=
  let evicted := s.Measurements.getD (NumberOfMeasurements - 1) 0
  let sum1 := s.SumMeasurements - evicted
  let shifted := reading :: s.Measurements.take (NumberOfMeasurements - 1)
  let sum2 := sum1 + reading
  { s with Measurements := shifted, SumMeasurements := sum2,
           AverageTemp := sum2 / (NumberOfMeasurements : ℚ) }

/-- Feeding a whole list of raw sensor readings, oldest first. -/
def feedAll (s : SysState) (xs : List ℚ) : SysState :=
  xs.foldl getTemperature s

/-- Arduino `map(x, inMin, inMax, outMin, outMax)`: `long` arithmetic with
C division (truncation toward zero, hence `Int.tdiv`). -/
def mapArduino (x inMin inMax outMin outMax : ℤ) : ℤ :=
  Int.tdiv ((x - inMin) * (outMax - outMin)) (inMax - inMin) + outMin

/-- Model of `getTargetTemperature`: take 10 analog reads of the potmeter, average
them with integer division, rescale into tenths of a degree over
`[MinTemp, MaxTemp]`, quantise to a multiple of 5 tenths with
`((m + 4) / 5) * 5` and divide by `10.0`. -/
def getTargetTemperature (s : SysState) (reads : List ℕ) : SysState :=
  let sum : ℕ := (reads.take 10).sum
  let avg : ℕ := sum / 10
  let m : ℤ := mapArduino (avg : ℤ) 0 1023 (s.MinTemp * 10) (s.MaxTemp * 10)
  { s with TargetTemperature := ((Int.tdiv (m + 4) 5 * 5 : ℤ) : ℚ) / 10 }

/-- Model of `controlHeater`: hysteresis rule driving the heater relay. -/
def controlHeater (s : SysState) (now : ℕ) : SysState × List PinWrite :=
  if s.AverageTemp + 0.25 < s.TargetTemperature ∧ s.HeaterStatus = Status.OFF then
    changeHeaterStatus s Status.ON now
  else if s.HeaterStatus = Status.ON ∧ s.AverageTemp ≥ s.TargetTemperature then
    changeHeaterStatus s Status.OFF now
  else (s, [])

/-- Model of `updateLCD`: render target temperature, current average, heater and pump
icons and the run time. Modelled as a `dashboard` snapshot. -/
def updateLCD (s : SysState) : SysState :=
  { s with dashboard := (some
      (s.TargetTemperature, s.AverageTemp, s.HeaterStatus, s.PumpStatus, s.RunTime)) }

/-- Model of `missionAbort`: force heater and pump relays OFF, show the halt screen
and enter the terminal alert loop.  The infinite loop is modelled by the
`halted` field; the emitted events are the first alert burst, which every
subsequent halted step repeats. -/
def missionAbort (s : SysState) (f : Fault) (now : ℕ) :
    SysState × List PinWrite × List Event :=
  let h := changeHeaterStatus s Status.OFF now
  let p := changePumpStatus h.1 Status.OFF
  ({ p.1 with lcdHalt := some ("System halted", f.message), halted := some f },
   h.2 ++ p.2, alertBurst)

/-- Checks 4 to 6 of `safetyCheck` (lines 246 to 255): run-time limit,
liquid over-temperature, and the fresh ambient reading against 40 degrees.
Reached only when the earlier checks did not abort. -/
def safetyTail (s : SysState) (now : ℕ) (ambient : ℤ) :
    SysState × Option Fault :=
  if u32 now / 1000 / 60 > s.MaxRunTime then
    (s, some Fault.RunTimeExceeded)
  else if s.AverageTemp > (s.MaxTemp : ℚ) then
    (s, some Fault.OverTemperature)
  else
    let s1 := { s with IntTemp := ambient }
    if s1.IntTemp > 40 then (s1, some Fault.AmbientOverTemperature)
    else (s1, none)

/-- Model of `safetyCheck`: gated on `TimeNow > TimeLastSafetyCheck + 120000`
(`unsigned long` arithmetic).  When eligible it resets the checkpoint
timestamp, performs the continuous-heating comparisons, updates the
heater-status baseline otherwise, and then runs the remaining checks.
A raised fault is returned instead of calling the non-returning
`missionAbort`; the caller performs the abort transition. -/
def safetyCheck (s : SysState) (now : ℕ) (ambient : ℤ) :
    SysState × Option Fault :=
  if u32 now > u32 (s.TimeLastSafetyCheck + 120000) then
    let s1 := { s with TimeLastSafetyCheck := u32 now }
    if s1.PreviousHeaterStatus = s1.HeaterStatus ∧ s1.HeaterStatus = Status.ON then
      if s1.AverageTemp ≤ s1.TempLastSafetyCheck then
        (s1, some Fault.SensorFault)
      else
        let s2 := { s1 with TempLastSafetyCheck := s1.AverageTemp }
        if (usub now s2.TimeHeaterOn : ℚ) > s2.MaxHeaterOnTime then
          (s2, some Fault.HeaterTimeout)
        else safetyTail s2 now ambient
    else
      let s2 :=
        if s1.HeaterStatus = Status.ON then
          { s1 with PreviousHeaterStatus := Status.ON }
        else if s1.HeaterStatus = Status.OFF then
          { s1 with PreviousHeaterStatus := Status.OFF }
        else s1
      safetyTail s2 now ambient
  else (s, none)

/-- The C global-variable initial values: ints and floats zero-initialised,
statuses OFF, together with the configuration defaults of lines 32 to 36. -/
def initialState : SysState :=
  { MinTemp := 5, MaxTemp := 35, WaterVolume := 10, PowerHeater := 300,
    MaxRunTime := 1440,
    TargetTemperature := 0, HeaterStatus := Status.OFF,
    PumpStatus := Status.OFF, PreviousHeaterStatus := Status.OFF,
    MaxHeaterOnTime := 0, RunTime := 0, TimeHeaterOn := 0,
    TimeLastSafetyCheck := 0,
    Measurements := List.replicate NumberOfMeasurements 0,
    SumMeasurements := 0, AverageTemp := 0, TempLastSafetyCheck := 0,
    IntTemp := 0, lcdHalt := none, dashboard := none, halted := none }

/-- Model of `setup`: write the heater relay OFF, compute `MaxHeaterOnTime`, warm up
the measurement window with ten readings (`initHeater`), snapshot the
average into `TempLastSafetyCheck`, set the pump status variable to ON and
take one ambient reading.  Note that no pump-pin write occurs. -/
def setup (samples : List ℚ) (ambient : ℤ) : SysState × List PinWrite :=
  let s0 := initialState
  let s1 := { s0 with MaxHeaterOnTime := (((s0.MaxTemp * s0.WaterVolume : ℤ) : ℚ)
    * 4.1868 * 1000000 / ((s0.PowerHeater : ℤ) : ℚ)) }
  let s2 := feedAll s1 (samples.take NumberOfMeasurements)
  let s3 := { s2 with TempLastSafetyCheck := s2.AverageTemp }
  let s4 := { s3 with PumpStatus := Status.ON }
  let s5 := { s4 with IntTemp := ambient }
  (s5, [⟨HEATER_PIN, Status.code Status.OFF⟩])

/-- The five phases of one pass of `loop`. -/
inductive Phase where
  | safety : Phase
  | setpoint : Phase
  | temperature : Phase
  | heater : Phase
  | render : Phase
deriving DecidableEq, Repr

/-- The call order of the body of `loop` (lines 211 to 215):
`safetyCheck(); getTargetTemperature(); getTemperature(); controlHeater();
updateLCD();`. -/
def loopCallOrder : List Phase :=
  [Phase.safety, Phase.setpoint, Phase.temperature, Phase.heater, Phase.render]

/-- External stimuli consumed by one pass of `loop`. -/
structure Inputs where
  now : ℕ
  potReads : List ℕ
  liquidTemp : ℚ
  ambient : ℤ
deriving Repr

/-- Execute one phase of the loop body.  A phase after a mission abort never
runs, because `missionAbort` does not return; this is expressed by the
`halted` guard. -/
def phaseRun (inp : Inputs) (acc : SysState × List PinWrite × List Event)
    (p : Phase) : SysState × List PinWrite × List Event :=
  if acc.1.halted.isSome then acc
  else
    match p with
    | Phase.safety =>
        let r := safetyCheck acc.1 inp.now inp.ambient
        match r.2 with
        | none => (r.1, acc.2.1, acc.2.2)
        | some f =>
            let a := missionAbort r.1 f inp.now
            (a.1, acc.2.1 ++ a.2.1, acc.2.2 ++ a.2.2)
    | Phase.setpoint => (getTargetTemperature acc.1 inp.potReads, acc.2.1, acc.2.2)
    | Phase.temperature => (getTemperature acc.1 inp.liquidTemp, acc.2.1, acc.2.2)
    | Phase.heater =>
        let r := controlHeater acc.1 inp.now
        (r.1, acc.2.1 ++ r.2, acc.2.2)
    | Phase.render => (updateLCD acc.1, acc.2.1, acc.2.2)

/-- One pass of `loop`: update `RunTime` from `millis()`, then run the five
phases in the order of `loopCallOrder`. -/
def loopPass (s : SysState) (inp : Inputs) :
    SysState × List PinWrite × List Event :=
  loopCallOrder.foldl (phaseRun inp)
    ({ s with RunTime := u32 inp.now / 1000 / 60 }, [], [])

/-- One tick of the running system: a halted system only repeats the alert
burst (the abort loop), a live system executes one pass of `loop`. -/
def systemStep (s : SysState) (inp : Inputs) :
    SysState × List PinWrite × List Event :=
  if s.halted.isSome then (s, [], alertBurst)
  else loopPass s inp

/-- Iterated system steps over a stream of inputs, keeping the state. -/
def runSystem (s : SysState) (inps : List Inputs) : SysState :=
  inps.foldl (fun t i => (systemStep t i).1) s

/-- Rounding up to the next half degree, stated over exact rationals:
the least multiple of `1/2` that is not below `q`. -/
def roundHalfUp (q : ℚ) : ℚ := ((⌈q * 2⌉ : ℤ) : ℚ) / 2

/-- Rounding to the nearest half degree, the operation named by the
specification for the setpoint reader. -/
def roundHalfNearest (q : ℚ) : ℚ := ((round (q * 2) : ℤ) : ℚ) / 2

/-- The loop-body order claimed by the specification (setpoint, temperature,
safety, heater, render), built from the same phase semantics; used to
compare the claimed order against `loopCallOrder`. -/
def specClaimedCallOrder : List Phase :=
  [Phase.setpoint, Phase.temperature, Phase.safety, Phase.heater, Phase.render]

/-- One pass of the loop as the specification orders it. -/
def loopPassSpecOrder (s : SysState) (inp : Inputs) :
    SysState × List PinWrite × List Event :=
  specClaimedCallOrder.foldl (phaseRun inp)
    ({ s with RunTime := u32 inp.now / 1000 / 60 }, [], [])

/-- A convenient concrete post-warm-up state used by witnesses: default
configuration, ten retained measurements of 30 degrees, heater and
baselines OFF, pump ON. -/
def baseState : SysState :=
  { MinTemp := 5, MaxTemp := 35, WaterVolume := 10, PowerHeater := 300,
    MaxRunTime := 1440,
    TargetTemperature := 28, HeaterStatus := Status.OFF,
    PumpStatus := Status.ON, PreviousHeaterStatus := Status.OFF,
    MaxHeaterOnTime := 4884600, RunTime := 0, TimeHeaterOn := 0,
    TimeLastSafetyCheck := 0,
    Measurements := [30, 30, 30, 30, 30, 30, 30, 30, 30, 30],
    SumMeasurements := 300, AverageTemp := 30, TempLastSafetyCheck := 30,
    IntTemp := 20, lcdHalt := none, dashboard := none, halted := none }

/-! ### Helper lemmas about frame effects of the individual operations -/

lemma safetyTail_TempLast (s : SysState) (now : ℕ) (amb : ℤ) :
    (safetyTail s now amb).1.TempLastSafetyCheck = s.TempLastSafetyCheck := by
  unfold safetyTail
  dsimp only
  repeat' split
  all_goals rfl

lemma safetyTail_halted (s : SysState) (now : ℕ) (amb : ℤ) :
    (safetyTail s now amb).1.halted = s.halted := by
  unfold safetyTail
  dsimp only
  repeat' split
  all_goals rfl

lemma safetyTail_not_sensor (s : SysState) (now : ℕ) (amb : ℤ) :
    (safetyTail s now amb).2 ≠ some Fault.SensorFault := by
  unfold safetyTail
  dsimp only
  repeat' split
  all_goals simp

lemma safetyTail_not_timeout (s : SysState) (now : ℕ) (amb : ℤ) :
    (safetyTail s now amb).2 ≠ some Fault.HeaterTimeout := by
  unfold safetyTail
  dsimp only
  repeat' split
  all_goals simp

lemma safetyCheck_halted (s : SysState) (now : ℕ) (amb : ℤ) :
    (safetyCheck s now amb).1.halted = s.halted := by
  unfold safetyCheck
  dsimp only
  repeat' split
  any_goals rfl
  all_goals rw [safetyTail_halted]

lemma controlHeater_halted (s : SysState) (now : ℕ) :
    (controlHeater s now).1.halted = s.halted := by
  unfold controlHeater changeHeaterStatus
  repeat' split
  all_goals rfl

lemma controlHeater_pin (s : SysState) (now : ℕ) :
    ∀ w ∈ (controlHeater s now).2, w.pin = HEATER_PIN := by
  unfold controlHeater changeHeaterStatus
  repeat' split
  all_goals simp

lemma safetyTail_TimeLast (s : SysState) (now : ℕ) (amb : ℤ) :
    (safetyTail s now amb).1.TimeLastSafetyCheck = s.TimeLastSafetyCheck := by
  unfold safetyTail
  dsimp only
  repeat' split
  all_goals rfl

lemma safetyTail_isSome_of_over (s : SysState) (now : ℕ) (amb : ℤ)
    (h : s.AverageTemp > (s.MaxTemp : ℚ)) : ((safetyTail s now amb).2).isSome := by
  unfold safetyTail
  dsimp only
  repeat' split
  all_goals simp_all

lemma feedAll_MaxHeaterOnTime (xs : List ℚ) (s : SysState) :
    (feedAll s xs).MaxHeaterOnTime = s.MaxHeaterOnTime := by
  induction xs generalizing s with
  | nil => rfl
  | cons x xs ih => rw [feedAll, List.foldl_cons]; exact ih (getTemperature s x)

/-- C4: the heater controller transitions OFF to ON exactly when the filtered
temperature plus 0.25 is below the target and the heater is OFF, transitions
ON to OFF exactly when the heater is ON and the filtered temperature has
reached the target (each transition writing the relay pin, and no write
otherwise); with filtered temperature at target minus 0.3 an OFF heater
turns ON, and at target minus 0.2 it stays OFF. -/
theorem heater_hysteresis_transitions (s : SysState) (now : ℕ) :
    (s.HeaterStatus = Status.OFF →
      (((controlHeater s now).1.HeaterStatus = Status.ON) ↔
        s.AverageTemp + 0.25 < s.TargetTemperature) ∧
      (s.AverageTemp + 0.25 < s.TargetTemperature →
        (controlHeater s now).2 = [⟨HEATER_PIN, Status.code Status.ON⟩]) ∧
      (¬ s.AverageTemp + 0.25 < s.TargetTemperature →
        controlHeater s now = (s, []))) ∧
    (s.HeaterStatus = Status.ON →
      (((controlHeater s now).1.HeaterStatus = Status.OFF) ↔
        s.AverageTemp ≥ s.TargetTemperature) ∧
      (s.AverageTemp ≥ s.TargetTemperature →
        (controlHeater s now).2 = [⟨HEATER_PIN, Status.code Status.OFF⟩]) ∧
      (¬ s.AverageTemp ≥ s.TargetTemperature → controlHeater s now = (s, []))) ∧
    (∀ t : ℚ, (controlHeater
        { s with HeaterStatus := Status.OFF, AverageTemp := t - 0.3,
                 TargetTemperature := t } now).1.HeaterStatus = Status.ON) ∧
    (∀ t : ℚ, (controlHeater
        { s with HeaterStatus := Status.OFF, AverageTemp := t - 0.2,
                 TargetTemperature := t } now).1.HeaterStatus = Status.OFF) := by
  refine ⟨?_, ?_, ?_, ?_⟩
  · intro hOFF
    by_cases hc : s.AverageTemp + 0.25 < s.TargetTemperature
    · simp [controlHeater, changeHeaterStatus, hc, hOFF]
    · simp [controlHeater, changeHeaterStatus, hc, hOFF]
  · intro hON
    by_cases hc : s.AverageTemp ≥ s.TargetTemperature
    · simp [controlHeater, changeHeaterStatus, hc, hON]
    · simp [controlHeater, changeHeaterStatus, hc, hON, not_le.mp hc,
        le_of_lt (not_le.mp hc)]
  · intro t
    have hc : (t - 0.3 : ℚ) + 0.25 < t := by linarith
    simp [controlHeater, changeHeaterStatus, hc]
  · intro t
    have hc : ¬ ((t - 0.2 : ℚ) + 0.25 < t) := by intro h; linarith
    simp [controlHeater, changeHeaterStatus, hc]

/-- C4 witness: at the default configuration a cold OFF heater turns ON, and
a hot ON heater turns OFF. -/
theorem heater_hysteresis_transitions_witness :
    (controlHeater { baseState with AverageTemp := 20 } 0).1.HeaterStatus = Status.ON ∧
    (controlHeater { baseState with HeaterStatus := Status.ON, AverageTemp := 28 }
      0).1.HeaterStatus = Status.OFF :=
  ⟨((heater_hysteresis_transitions { baseState with AverageTemp := 20 } 0).1
      rfl).1.mpr (by norm_num [baseState]),
   ((heater_hysteresis_transitions
      { baseState with HeaterStatus := Status.ON, AverageTemp := 28 } 0).2.1
      rfl).1.mpr (by norm_num [baseState])⟩

/-- C9 (amended): the safety checks run on a tick exactly when
`now` is strictly greater than `lastCheckTimestamp + 120000` (unsigned
arithmetic), that is when strictly more than 120000 ms have elapsed; when
that strict condition fails — in particular at exactly 120000 ms — the call
performs no checks, changes nothing and raises no fault, and when it holds
the checkpoint timestamp is reset and the checks really run (a filtered
temperature above MaxTemp is turned into a raised fault). -/
theorem safety_gate_strict :
    (∀ (s : SysState) (now : ℕ) (amb : ℤ),
        ¬ u32 now > u32 (s.TimeLastSafetyCheck + 120000) →
        safetyCheck s now amb = (s, none)) ∧
    (∀ (s : SysState) (now : ℕ) (amb : ℤ),
        u32 now > u32 (s.TimeLastSafetyCheck + 120000) →
        (safetyCheck s now amb).1.TimeLastSafetyCheck = u32 now ∧
        (s.AverageTemp > (s.MaxTemp : ℚ) → ((safetyCheck s now amb).2).isSome)) := by
  constructor
  · intro s now amb h
    simp [safetyCheck, h]
  · intro s now amb h
    constructor
    · unfold safetyCheck
      dsimp only
      rw [if_pos h]
      repeat' split
      any_goals rfl
      all_goals rw [safetyTail_TimeLast]
    · intro hover
      unfold safetyCheck
      dsimp only
      rw [if_pos h]
      repeat' split
      any_goals simp
      all_goals exact safetyTail_isSome_of_over _ _ _ hover

/-- C9 counterexample: with the checkpoint timestamp at 0 and the current
time exactly 120000 (so that now minus lastCheck equals the full check
interval, which the claim says is enough), `safetyCheck` does nothing at
all even though the filtered temperature is far above MaxTemp. -/
theorem safety_gate_boundary_counterexample :
    120000 - ({ baseState with AverageTemp := 100 } : SysState).TimeLastSafetyCheck
      = 120000 ∧
    ({ baseState with AverageTemp := 100 } : SysState).AverageTemp >
      (({ baseState with AverageTemp := 100 } : SysState).MaxTemp : ℚ) ∧
    safetyCheck { baseState with AverageTemp := 100 } 120000 20 =
      ({ baseState with AverageTemp := 100 }, none) := by
  refine ⟨rfl, by norm_num [baseState], ?_⟩
  norm_num [safetyCheck, baseState, u32]

/-- C9 witness: the gate theorem applied at concrete states, one tick on the
closed side of the boundary and one just past it. -/
theorem safety_gate_strict_witness :
    safetyCheck { baseState with AverageTemp := 100 } 120000 20 =
      ({ baseState with AverageTemp := 100 }, none) ∧
    ((safetyCheck { baseState with AverageTemp := 100 } 120001 20).2).isSome :=
  ⟨safety_gate_strict.1 { baseState with AverageTemp := 100 } 120000 20
      (by norm_num [baseState, u32]),
   (safety_gate_strict.2 { baseState with AverageTemp := 100 } 120001 20
      (by norm_num [baseState, u32])).2 (by norm_num [baseState])⟩

/-- C3 (amended): `MaxHeaterOnTime` is computed at startup by the
specific-heat formula `MaxTemp * Volume * 4.1868e6 / PowerHeater`
(4884600 ms at the default configuration); `HeaterTimeout` is raised only
on an eligible pass with the heater continuously ON whose elapsed time
since the last ON transition strictly exceeds `MaxHeaterOnTime` — never
before that elapsed time — and on such a pass it is raised provided the
sensor-fault comparison observed a temperature increase (otherwise
`SensorFault` preempts it). -/
theorem heater_timeout_bound :
    (∀ (samples : List ℚ) (amb : ℤ),
        (setup samples amb).1.MaxHeaterOnTime =
          ((initialState.MaxTemp * initialState.WaterVolume : ℤ) : ℚ) * 4.1868 * 1000000
            / ((initialState.PowerHeater : ℤ) : ℚ) ∧
        (setup samples amb).1.MaxHeaterOnTime = 4884600) ∧
    (∀ (s : SysState) (now : ℕ) (amb : ℤ),
        (safetyCheck s now amb).2 = some Fault.HeaterTimeout →
        s.PreviousHeaterStatus = Status.ON ∧ s.HeaterStatus = Status.ON ∧
        u32 now > u32 (s.TimeLastSafetyCheck + 120000) ∧
        ((usub now s.TimeHeaterOn : ℕ) : ℚ) > s.MaxHeaterOnTime) ∧
    (∀ (s : SysState) (now : ℕ) (amb : ℤ),
        u32 now > u32 (s.TimeLastSafetyCheck + 120000) →
        s.PreviousHeaterStatus = Status.ON → s.HeaterStatus = Status.ON →
        s.TempLastSafetyCheck < s.AverageTemp →
        ((usub now s.TimeHeaterOn : ℕ) : ℚ) > s.MaxHeaterOnTime →
        (safetyCheck s now amb).2 = some Fault.HeaterTimeout) := by
  refine ⟨?_, ?_, ?_⟩
  · intro samples amb
    constructor
    · show (feedAll _ _).MaxHeaterOnTime = _
      rw [feedAll_MaxHeaterOnTime]
    · show (feedAll _ _).MaxHeaterOnTime = _
      rw [feedAll_MaxHeaterOnTime]
      norm_num [initialState]
  · intro s now amb h
    unfold safetyCheck at h
    dsimp only at h
    by_cases hg : u32 now > u32 (s.TimeLastSafetyCheck + 120000)
    · rw [if_pos hg] at h
      by_cases hc : s.PreviousHeaterStatus = s.HeaterStatus ∧ s.HeaterStatus = Status.ON
      · rw [if_pos hc] at h
        by_cases hle : s.AverageTemp ≤ s.TempLastSafetyCheck
        · rw [if_pos hle] at h
          simp at h
        · rw [if_neg hle] at h
          by_cases ht : ((usub now s.TimeHeaterOn : ℕ) : ℚ) > s.MaxHeaterOnTime
          · exact ⟨hc.1.trans hc.2, hc.2, hg, ht⟩
          · rw [if_neg ht] at h
            exact absurd h (safetyTail_not_timeout _ _ _)
      · rw [if_neg hc] at h
        exact absurd h (safetyTail_not_timeout _ _ _)
    · rw [if_neg hg] at h
      simp at h
  · intro s now amb hg hp hh hlt ht
    unfold safetyCheck
    dsimp only
    rw [if_pos hg, if_pos ⟨hp.trans hh.symm, hh⟩, if_neg (not_le.mpr hlt), if_pos ht]

/-- C3 counterexample: an eligible pass with the heater continuously ON and
the elapsed on-time (5000001 ms) past `MaxHeaterOnTime` (4884600 ms), but
with no temperature increase: the pass raises `SensorFault`, not
`HeaterTimeout`, so the claim that HeaterTimeout is raised whenever the
elapsed time exceeds the bound fails. -/
theorem heater_timeout_preempted_counterexample :
    ((usub 5000001 ({ baseState with PreviousHeaterStatus := Status.ON, HeaterStatus := Status.ON } : SysState).TimeHeaterOn : ℕ) : ℚ) >
      ({ baseState with PreviousHeaterStatus := Status.ON, HeaterStatus := Status.ON } : SysState).MaxHeaterOnTime ∧
    u32 5000001 > u32 (({ baseState with PreviousHeaterStatus := Status.ON, HeaterStatus := Status.ON } : SysState).TimeLastSafetyCheck + 120000) ∧
    (safetyCheck { baseState with PreviousHeaterStatus := Status.ON, HeaterStatus := Status.ON } 5000001 20).2 = some Fault.SensorFault ∧
    (safetyCheck { baseState with PreviousHeaterStatus := Status.ON, HeaterStatus := Status.ON } 5000001 20).2 ≠ some Fault.HeaterTimeout := by
  refine ⟨by norm_num [baseState, usub, u32], by norm_num [baseState, u32], ?_, ?_⟩
  · norm_num [safetyCheck, baseState, u32]
  · norm_num [safetyCheck, baseState, u32]
    decide

/-- C3 witness: on an eligible continuous-ON pass where the temperature did
increase and the elapsed on-time exceeds the bound, HeaterTimeout is raised. -/
theorem heater_timeout_bound_witness :
    (safetyCheck { baseState with PreviousHeaterStatus := Status.ON, HeaterStatus := Status.ON, AverageTemp := 31 } 5000001 20).2 =
      some Fault.HeaterTimeout :=
  heater_timeout_bound.2.2
    { baseState with PreviousHeaterStatus := Status.ON, HeaterStatus := Status.ON, AverageTemp := 31 } 5000001 20
    (by norm_num [baseState, u32]) rfl rfl (by norm_num [baseState])
    (by norm_num [baseState, usub, u32])

/-- C2: on an eligible pass with the heater ON at the previous checkpoint and
still ON now, SensorFault is raised exactly when the filtered temperature has
not increased over the recorded checkpoint temperature, and the checkpoint
temperature is updated to the current value when it has increased; a run with
the heater continuously ON across two consecutive checkpoints and no
temperature increase raises SensorFault at the second checkpoint and not at
the first. -/
theorem sensor_fault_second_checkpoint :
    (∀ (s : SysState) (now : ℕ) (amb : ℤ),
        u32 now > u32 (s.TimeLastSafetyCheck + 120000) →
        s.PreviousHeaterStatus = Status.ON → s.HeaterStatus = Status.ON →
        (((safetyCheck s now amb).2 = some Fault.SensorFault) ↔
          s.AverageTemp ≤ s.TempLastSafetyCheck) ∧
        (s.TempLastSafetyCheck < s.AverageTemp →
          (safetyCheck s now amb).1.TempLastSafetyCheck = s.AverageTemp)) ∧
    (∀ (s : SysState) (t1 t2 : ℕ) (amb1 amb2 : ℤ) (a2 : ℚ),
        s.PreviousHeaterStatus = Status.OFF → s.HeaterStatus = Status.ON →
        s.TempLastSafetyCheck = s.AverageTemp →
        u32 t1 > u32 (s.TimeLastSafetyCheck + 120000) →
        ¬ u32 t1 / 1000 / 60 > s.MaxRunTime →
        ¬ s.AverageTemp > (s.MaxTemp : ℚ) →
        ¬ amb1 > (40 : ℤ) →
        a2 ≤ s.AverageTemp →
        u32 t2 > u32 (u32 t1 + 120000) →
        (safetyCheck s t1 amb1).2 = none ∧
        (safetyCheck s t1 amb1).1.PreviousHeaterStatus = Status.ON ∧
        (safetyCheck { (safetyCheck s t1 amb1).1 with AverageTemp := a2 }
            t2 amb2).2 = some Fault.SensorFault) := by
  have hpass : ∀ (s : SysState) (now : ℕ) (amb : ℤ),
      u32 now > u32 (s.TimeLastSafetyCheck + 120000) →
      s.PreviousHeaterStatus = Status.ON → s.HeaterStatus = Status.ON →
      (((safetyCheck s now amb).2 = some Fault.SensorFault) ↔
        s.AverageTemp ≤ s.TempLastSafetyCheck) ∧
      (s.TempLastSafetyCheck < s.AverageTemp →
        (safetyCheck s now amb).1.TempLastSafetyCheck = s.AverageTemp) := by
    intro s now amb hg hp hh
    unfold safetyCheck
    dsimp only
    rw [if_pos hg, if_pos ⟨hp.trans hh.symm, hh⟩]
    constructor
    · constructor
      · intro hres
        by_contra hlt
        rw [if_neg hlt] at hres
        by_cases ht : ((usub now s.TimeHeaterOn : ℕ) : ℚ) > s.MaxHeaterOnTime
        · rw [if_pos ht] at hres
          simp at hres
        · rw [if_neg ht] at hres
          exact safetyTail_not_sensor _ _ _ hres
      · intro hle
        rw [if_pos hle]
    · intro hlt
      rw [if_neg (not_le.mpr hlt)]
      by_cases ht : ((usub now s.TimeHeaterOn : ℕ) : ℚ) > s.MaxHeaterOnTime
      · rw [if_pos ht]
      · rw [if_neg ht, safetyTail_TempLast]
  refine ⟨hpass, ?_⟩
  intro s t1 t2 amb1 amb2 a2 hp hh hsnap hg1 hrun hmax hamb ha2 hg2
  have hcond : ¬ (s.PreviousHeaterStatus = s.HeaterStatus ∧
      s.HeaterStatus = Status.ON) := by
    simp [hp, hh]
  have heval : safetyCheck s t1 amb1 =
      ({ s with TimeLastSafetyCheck := u32 t1,
                PreviousHeaterStatus := Status.ON, IntTemp := amb1 }, none) := by
    unfold safetyCheck safetyTail
    dsimp only
    rw [if_pos hg1, if_neg hcond, if_pos hh, if_neg hrun, if_neg hmax, if_neg hamb]
  refine ⟨by rw [heval], by rw [heval], ?_⟩
  rw [heval]
  have h3 := hpass
    { s with TimeLastSafetyCheck := u32 t1, PreviousHeaterStatus := Status.ON,
             IntTemp := amb1, AverageTemp := a2 } t2 amb2 hg2 rfl hh
  exact h3.1.mpr (by show a2 ≤ s.TempLastSafetyCheck; rw [hsnap]; exact ha2)

/-- C2 witness: concrete two-checkpoint run with the heater turning ON before
the first checkpoint and the temperature flat at 30 degrees; no fault at the
first checkpoint, SensorFault at the second. -/
theorem sensor_fault_second_checkpoint_witness :
    (safetyCheck { baseState with HeaterStatus := Status.ON } 120001 20).2 = none ∧
    (safetyCheck { (safetyCheck { baseState with HeaterStatus := Status.ON } 120001 20).1 with AverageTemp := 30 }
        240002 20).2 = some Fault.SensorFault := by
  have h := sensor_fault_second_checkpoint.2
    { baseState with HeaterStatus := Status.ON } 120001 240002 20 20 30
    rfl rfl rfl
    (by norm_num [baseState, u32]) (by norm_num [baseState, u32])
    (by norm_num [baseState]) (by norm_num) (by norm_num [baseState])
    (by norm_num [u32])
  exact ⟨h.1, h.2.2⟩

lemma safetyTail_Previous (s : SysState) (now : ℕ) (amb : ℤ) :
    (safetyTail s now amb).1.PreviousHeaterStatus = s.PreviousHeaterStatus := by
  unfold safetyTail
  dsimp only
  repeat' split
  all_goals rfl

lemma safetyCheck_TempLast_cases (s : SysState) (now : ℕ) (amb : ℤ) :
    (safetyCheck s now amb).1.TempLastSafetyCheck = s.TempLastSafetyCheck ∨
    (u32 now > u32 (s.TimeLastSafetyCheck + 120000) ∧
     s.PreviousHeaterStatus = Status.ON ∧ s.HeaterStatus = Status.ON ∧
     s.TempLastSafetyCheck < s.AverageTemp ∧
     (safetyCheck s now amb).1.TempLastSafetyCheck = s.AverageTemp) := by
  by_cases hg : u32 now > u32 (s.TimeLastSafetyCheck + 120000)
  · by_cases hc : s.PreviousHeaterStatus = s.HeaterStatus ∧ s.HeaterStatus = Status.ON
    · by_cases hle : s.AverageTemp ≤ s.TempLastSafetyCheck
      · left
        unfold safetyCheck
        dsimp only
        rw [if_pos hg, if_pos hc, if_pos hle]
      · right
        refine ⟨hg, hc.1.trans hc.2, hc.2, not_le.mp hle, ?_⟩
        unfold safetyCheck
        dsimp only
        rw [if_pos hg, if_pos hc, if_neg hle]
        by_cases ht : ((usub now s.TimeHeaterOn : ℕ) : ℚ) > s.MaxHeaterOnTime
        · rw [if_pos ht]
        · rw [if_neg ht, safetyTail_TempLast]
    · left
      unfold safetyCheck
      dsimp only
      rw [if_pos hg, if_neg hc, safetyTail_TempLast]
      repeat' split
      all_goals rfl
  · left
    unfold safetyCheck
    dsimp only
    rw [if_neg hg]

lemma safetyCheck_Previous_baseline (s : SysState) (now : ℕ) (amb : ℤ)
    (hg : u32 now > u32 (s.TimeLastSafetyCheck + 120000))
    (hc : ¬ (s.PreviousHeaterStatus = s.HeaterStatus ∧ s.HeaterStatus = Status.ON)) :
    (safetyCheck s now amb).1.PreviousHeaterStatus = s.HeaterStatus := by
  unfold safetyCheck
  dsimp only
  rw [if_pos hg, if_neg hc, safetyTail_Previous]
  cases hS : s.HeaterStatus
  all_goals simp [hS]

/-- C10: on every safety-check pass where the heater was not ON at both the
previous checkpoint and now, the checkpoint temperature is unchanged and the
heater-status baseline is set to the current status; when the temperature has
not increased the checkpoint temperature is also unchanged; the checkpoint
temperature changes only on an eligible continuous-ON pass that observed an
increase — and it is initialised at startup to the warm-up average. -/
theorem checkpoint_temp_frame :
    (∀ (s : SysState) (now : ℕ) (amb : ℤ),
        ¬ (s.PreviousHeaterStatus = Status.ON ∧ s.HeaterStatus = Status.ON) →
        (safetyCheck s now amb).1.TempLastSafetyCheck = s.TempLastSafetyCheck ∧
        (u32 now > u32 (s.TimeLastSafetyCheck + 120000) →
          (safetyCheck s now amb).1.PreviousHeaterStatus = s.HeaterStatus)) ∧
    (∀ (s : SysState) (now : ℕ) (amb : ℤ),
        s.AverageTemp ≤ s.TempLastSafetyCheck →
        (safetyCheck s now amb).1.TempLastSafetyCheck = s.TempLastSafetyCheck) ∧
    (∀ (s : SysState) (now : ℕ) (amb : ℤ),
        (safetyCheck s now amb).1.TempLastSafetyCheck ≠ s.TempLastSafetyCheck →
        s.PreviousHeaterStatus = Status.ON ∧ s.HeaterStatus = Status.ON ∧
        s.TempLastSafetyCheck < s.AverageTemp ∧
        (safetyCheck s now amb).1.TempLastSafetyCheck = s.AverageTemp) ∧
    (∀ (samples : List ℚ) (amb : ℤ),
        (setup samples amb).1.TempLastSafetyCheck =
          (setup samples amb).1.AverageTemp) := by
  refine ⟨?_, ?_, ?_, ?_⟩
  · intro s now amb hn
    constructor
    · rcases safetyCheck_TempLast_cases s now amb with h | h
      · exact h
      · exact absurd ⟨h.2.1, h.2.2.1⟩ hn
    · intro hg
      exact safetyCheck_Previous_baseline s now amb hg
        (fun hand => hn ⟨hand.1.trans hand.2, hand.2⟩)
  · intro s now amb hle
    rcases safetyCheck_TempLast_cases s now amb with h | h
    · exact h
    · exact absurd hle (not_le.mpr h.2.2.2.1)
  · intro s now amb hne
    rcases safetyCheck_TempLast_cases s now amb with h | h
    · exact absurd h hne
    · exact ⟨h.2.1, h.2.2.1, h.2.2.2⟩
  · intro samples amb
    rfl

/-- C10 witness: a pass with heater OFF at both checkpoints keeps the
checkpoint temperature and records the OFF baseline. -/
theorem checkpoint_temp_frame_witness :
    (safetyCheck baseState 240000 20).1.TempLastSafetyCheck =
      baseState.TempLastSafetyCheck ∧
    (safetyCheck baseState 240000 20).1.PreviousHeaterStatus =
      baseState.HeaterStatus :=
  ⟨(checkpoint_temp_frame.1 baseState 240000 20 (by decide)).1,
   (checkpoint_temp_frame.1 baseState 240000 20 (by decide)).2
     (by norm_num [baseState, u32])⟩

lemma take_sum_getD : ∀ (M : List ℚ) (n : ℕ), M.length = n + 1 →
    (M.take n).sum = M.sum - M.getD n 0 := by
  intro M
  induction M with
  | nil => intro n h; simp at h
  | cons x M ih =>
    intro n h
    cases n with
    | zero =>
      have hM : M = [] := by
        have h0 : M.length = 0 := by simpa using h
        exact List.length_eq_zero.mp h0
      subst hM
      simp
    | succ m =>
      have hM : M.length = m + 1 := by simpa using h
      simp only [List.take_succ_cons, List.sum_cons, List.getD_cons_succ]
      rw [ih m hM]
      ring

lemma take_append_window (A M : List ℚ) (x : ℚ) :
    (A ++ (x :: M.take 9)).take 10 = (A ++ (x :: M)).take 10 := by
  rw [List.take_append_eq_append_take, List.take_append_eq_append_take]
  rcases hA : 10 - A.length with _ | m
  · simp
  · simp only [List.take_succ_cons, List.take_take]
    rw [min_eq_left (by omega)]

lemma feedAll_window : ∀ (xs : List ℚ) (s : SysState),
    s.Measurements.length = 10 → s.SumMeasurements = s.Measurements.sum →
    (feedAll s xs).Measurements = (xs.reverse ++ s.Measurements).take 10 ∧
    (feedAll s xs).SumMeasurements = ((xs.reverse ++ s.Measurements).take 10).sum := by
  intro xs
  induction xs with
  | nil =>
    intro s hlen hsum
    constructor
    · show s.Measurements = (([] : List ℚ).reverse ++ s.Measurements).take 10
      simp only [List.reverse_nil, List.nil_append]
      rw [← hlen, List.take_length]
    · show s.SumMeasurements = ((([] : List ℚ).reverse ++ s.Measurements).take 10).sum
      simp only [List.reverse_nil, List.nil_append]
      rw [← hlen, List.take_length, hsum]
  | cons x xs ih =>
    intro s hlen hsum
    have hstep_m : (getTemperature s x).Measurements = x :: s.Measurements.take 9 := rfl
    have hlen' : (getTemperature s x).Measurements.length = 10 := by
      rw [hstep_m]
      simp [List.length_take, hlen]
    have hsum' : (getTemperature s x).SumMeasurements =
        (getTemperature s x).Measurements.sum := by
      show s.SumMeasurements - s.Measurements.getD 9 0 + x =
        (x :: s.Measurements.take 9).sum
      rw [List.sum_cons, hsum, take_sum_getD s.Measurements 9 hlen]
      ring
    have h := ih (getTemperature s x) hlen' hsum'
    constructor
    · show (feedAll (getTemperature s x) xs).Measurements = _
      rw [h.1, hstep_m, List.reverse_cons, List.append_assoc,
        List.singleton_append]
      exact take_append_window _ _ _
    · show (feedAll (getTemperature s x) xs).SumMeasurements = _
      rw [h.2, hstep_m, List.reverse_cons, List.append_assoc,
        List.singleton_append, take_append_window _ _ _]

lemma feedAll_avg : ∀ (xs : List ℚ) (s : SysState), xs ≠ [] →
    (feedAll s xs).AverageTemp = (feedAll s xs).SumMeasurements / 10 := by
  intro xs
  induction xs with
  | nil => intro s h; exact absurd rfl h
  | cons x xs ih =>
    intro s _
    cases xs with
    | nil =>
      show (getTemperature s x).AverageTemp = (getTemperature s x).SumMeasurements / 10
      show (getTemperature s x).SumMeasurements / ((NumberOfMeasurements : ℕ) : ℚ) = _
      norm_num [NumberOfMeasurements]
    | cons y ys =>
      show (feedAll (getTemperature s x) (y :: ys)).AverageTemp = _
      exact ih (getTemperature s x) (by simp)

/-- C5: after warm-up (a well-formed 10-sample window with a matching running
sum) and at least 10 further samples, the retained window is exactly the last
10 samples fed, the running sum is their sum — maintained incrementally as
old sum minus evicted plus inserted — and the exposed average is that sum
divided by N = 10, i.e. the arithmetic mean of exactly the last 10 samples. -/
theorem filter_average_last_ten (s : SysState) (xs : List ℚ)
    (hlen : s.Measurements.length = 10)
    (hsum : s.SumMeasurements = s.Measurements.sum)
    (hxs : 10 ≤ xs.length) :
    (∀ x : ℚ, (getTemperature s x).SumMeasurements =
      s.SumMeasurements - s.Measurements.getD (NumberOfMeasurements - 1) 0 + x) ∧
    (feedAll s xs).Measurements = xs.reverse.take 10 ∧
    (feedAll s xs).SumMeasurements = (xs.reverse.take 10).sum ∧
    (feedAll s xs).AverageTemp = (xs.reverse.take 10).sum / 10 := by
  have hw := feedAll_window xs s hlen hsum
  have hcut : (xs.reverse ++ s.Measurements).take 10 = xs.reverse.take 10 := by
    rw [List.take_append_eq_append_take]
    have h0 : 10 - xs.reverse.length = 0 := by
      rw [List.length_reverse]
      omega
    rw [h0]
    simp
  have hne : xs ≠ [] := by
    intro h
    rw [h] at hxs
    simp at hxs
  refine ⟨fun x => rfl, ?_, ?_, ?_⟩
  · rw [hw.1, hcut]
  · rw [hw.2, hcut]
  · rw [feedAll_avg xs s hne, hw.2, hcut]

/-- C5 witness: feeding the ten samples 1..10 into a warm window of ten 30s
leaves exactly 1..10 retained and the average (1+...+10)/10. -/
theorem filter_average_last_ten_witness :
    (feedAll baseState [1,2,3,4,5,6,7,8,9,10]).AverageTemp =
      (([1,2,3,4,5,6,7,8,9,10] : List ℚ).reverse.take 10).sum / 10 :=
  (filter_average_last_ten baseState [1,2,3,4,5,6,7,8,9,10]
    (by decide)
    (by norm_num [baseState])
    (by norm_num)).2.2.2

lemma tdiv_add_four_eq_ceil (m : ℤ) (hm : 0 ≤ m) :
    Int.tdiv (m + 4) 5 = ⌈(m : ℚ) / 5⌉ := by
  rw [Int.tdiv_eq_ediv (by omega) (by norm_num)]
  symm
  rw [Int.ceil_eq_iff]
  have hdm := Int.ediv_add_emod (m + 4) 5
  have h0 := Int.emod_nonneg (m + 4) (by norm_num : (5:ℤ) ≠ 0)
  have h1 := Int.emod_lt_of_pos (m + 4) (by norm_num : (0:ℤ) < 5)
  constructor
  · rw [lt_div_iff₀ (by norm_num : (0:ℚ) < 5)]
    have hz : (((m + 4) / 5 : ℤ) - 1) * 5 < m := by omega
    exact_mod_cast hz
  · rw [div_le_iff₀ (by norm_num : (0:ℚ) < 5)]
    have hz : m ≤ ((m + 4) / 5) * 5 := by omega
    exact_mod_cast hz

/-- C8 (amended): the setpoint reader averages the 10 raw reads with integer
division, linearly rescales the average into tenths of a degree over
`[MinTemp, MaxTemp]` via the Arduino map, and then rounds UP to the next
half degree (the least multiple of 0.5 not below the mapped value), not to
the nearest half degree; the returned value is always a multiple of 0.5. -/
theorem setpoint_rounds_up (s : SysState) (reads : List ℕ)
    (hmin : 0 ≤ s.MinTemp) (hord : s.MinTemp ≤ s.MaxTemp) :
    (getTargetTemperature s reads).TargetTemperature =
      roundHalfUp (((mapArduino (((reads.take 10).sum / 10 : ℕ) : ℤ) 0 1023
        (s.MinTemp * 10) (s.MaxTemp * 10) : ℤ) : ℚ) / 10) ∧
    (∃ k : ℤ, (getTargetTemperature s reads).TargetTemperature = (k : ℚ) / 2) := by
  have hm : 0 ≤ mapArduino (((reads.take 10).sum / 10 : ℕ) : ℤ) 0 1023
      (s.MinTemp * 10) (s.MaxTemp * 10) := by
    unfold mapArduino
    have h1 : (0:ℤ) ≤ ((((reads.take 10).sum / 10 : ℕ) : ℤ) - 0) *
        (s.MaxTemp * 10 - s.MinTemp * 10) := by
      apply mul_nonneg
      · omega
      · omega
    have h2 := Int.tdiv_nonneg h1 (by norm_num : (0:ℤ) ≤ 1023 - 0)
    omega
  constructor
  · show ((Int.tdiv (mapArduino (((reads.take 10).sum / 10 : ℕ) : ℤ) 0 1023
        (s.MinTemp * 10) (s.MaxTemp * 10) + 4) 5 * 5 : ℤ) : ℚ) / 10 = _
    rw [roundHalfUp]
    have h2 : ((mapArduino (((reads.take 10).sum / 10 : ℕ) : ℤ) 0 1023
        (s.MinTemp * 10) (s.MaxTemp * 10) : ℤ) : ℚ) / 10 * 2 =
        ((mapArduino (((reads.take 10).sum / 10 : ℕ) : ℤ) 0 1023
        (s.MinTemp * 10) (s.MaxTemp * 10) : ℤ) : ℚ) / 5 := by
      ring
    rw [h2, ← tdiv_add_four_eq_ceil _ hm]
    push_cast
    ring
  · refine ⟨Int.tdiv (mapArduino (((reads.take 10).sum / 10 : ℕ) : ℤ) 0 1023
      (s.MinTemp * 10) (s.MaxTemp * 10) + 4) 5 * 5 / 5, ?_⟩
    show ((Int.tdiv (mapArduino (((reads.take 10).sum / 10 : ℕ) : ℤ) 0 1023
        (s.MinTemp * 10) (s.MaxTemp * 10) + 4) 5 * 5 : ℤ) : ℚ) / 10 = _
    rw [Int.mul_ediv_cancel _ (by norm_num : (5:ℤ) ≠ 0)]
    push_cast
    ring

/-- C8 counterexample: ten raw reads of 4 average to 4 and map to 51 tenths
(5.1 degrees); the code returns 5.5 (rounding up), while rounding to the
nearest half degree as claimed would return 5.0. -/
theorem setpoint_round_nearest_counterexample :
    (getTargetTemperature baseState (List.replicate 10 4)).TargetTemperature = 11 / 2 ∧
    mapArduino ((((List.replicate 10 (4:ℕ)).take 10).sum / 10 : ℕ) : ℤ) 0 1023
      (baseState.MinTemp * 10) (baseState.MaxTemp * 10) = 51 ∧
    roundHalfNearest ((51 : ℚ) / 10) = 5 ∧
    ((11 / 2 : ℚ) ≠ 5) := by
  have hmap : mapArduino ((((List.replicate 10 (4:ℕ)).take 10).sum / 10 : ℕ) : ℤ) 0 1023
      (baseState.MinTemp * 10) (baseState.MaxTemp * 10) = 51 := by decide
  refine ⟨?_, hmap, ?_, by norm_num⟩
  · show ((Int.tdiv (mapArduino ((((List.replicate 10 (4:ℕ)).take 10).sum / 10 : ℕ) : ℤ)
        0 1023 (baseState.MinTemp * 10) (baseState.MaxTemp * 10) + 4) 5 * 5 : ℤ) : ℚ)
        / 10 = 11 / 2
    rw [hmap]
    have h55 : Int.tdiv (51 + 4) 5 * 5 = 55 := by decide
    rw [h55]
    norm_num
  · rw [roundHalfNearest]
    have hr : round ((51 : ℚ) / 10 * 2) = 10 := by
      rw [round_eq]
      norm_num
    rw [hr]
    norm_num

/-- C8 witness: the rounding-up theorem applied to the concrete batch of ten
reads of 4 at the default configuration. -/
theorem setpoint_rounds_up_witness :
    (getTargetTemperature baseState (List.replicate 10 4)).TargetTemperature =
      roundHalfUp (((mapArduino ((((List.replicate 10 (4:ℕ)).take 10).sum / 10 : ℕ) : ℤ)
        0 1023 (baseState.MinTemp * 10) (baseState.MaxTemp * 10) : ℤ) : ℚ) / 10) :=
  (setpoint_rounds_up baseState (List.replicate 10 4) (by decide) (by decide)).1

lemma phaseRun_writes (inp : Inputs) (acc : SysState × List PinWrite × List Event)
    (p : Phase) :
    ∀ w ∈ (phaseRun inp acc p).2.1,
      w ∈ acc.2.1 ∨ w.pin = HEATER_PIN ∨
        (w.pin = PUMP_PIN ∧ w.val = Status.code Status.OFF) := by
  intro w hw
  unfold phaseRun at hw
  by_cases hh : acc.1.halted.isSome
  · rw [if_pos hh] at hw
    exact Or.inl hw
  · rw [if_neg hh] at hw
    cases p with
    | safety =>
      dsimp only at hw
      split at hw
      · exact Or.inl hw
      · dsimp only at hw
        rw [List.mem_append] at hw
        rcases hw with h | h
        · exact Or.inl h
        · simp only [missionAbort, changeHeaterStatus, changePumpStatus,
            List.cons_append, List.nil_append, List.mem_cons,
            List.not_mem_nil, or_false] at h
          rcases h with rfl | rfl
          · exact Or.inr (Or.inl rfl)
          · exact Or.inr (Or.inr ⟨rfl, rfl⟩)
    | setpoint => exact Or.inl hw
    | temperature => exact Or.inl hw
    | heater =>
      dsimp only at hw
      rw [List.mem_append] at hw
      rcases hw with h | h
      · exact Or.inl h
      · exact Or.inr (Or.inl (controlHeater_pin _ _ _ h))
    | render => exact Or.inl hw

lemma foldl_phase_writes (inp : Inputs) :
    ∀ (ps : List Phase) (acc : SysState × List PinWrite × List Event),
      ∀ w ∈ (ps.foldl (phaseRun inp) acc).2.1,
        w ∈ acc.2.1 ∨ w.pin = HEATER_PIN ∨
          (w.pin = PUMP_PIN ∧ w.val = Status.code Status.OFF) := by
  intro ps
  induction ps with
  | nil => intro acc w hw; exact Or.inl hw
  | cons p ps ih =>
    intro acc w hw
    rcases ih (phaseRun inp acc p) w hw with h | h
    · exact phaseRun_writes inp acc p w h
    · exact Or.inr h

/-- C6 counterexample: the startup sequence records PumpState ON but its
pin-write trace contains no pump-pin write at all (its only write is the
heater pin OFF), so startup does not command the pump actuator ON. -/
theorem pump_startup_write_counterexample :
    (setup (List.replicate 10 30) 20).2 =
      [⟨HEATER_PIN, Status.code Status.OFF⟩] ∧
    ((setup (List.replicate 10 30) 20).2).filter (fun w => w.pin == PUMP_PIN) = [] ∧
    (setup (List.replicate 10 30) 20).1.PumpStatus = Status.ON :=
  ⟨rfl, rfl, rfl⟩

/-- C6 (amended): startup records PumpState = ON but issues no pump actuator
command; the pump pin is written only by the abort procedure, which forces it
OFF; and every pump-pin write any system tick can emit carries the OFF value. -/
theorem pump_writers :
    (∀ (samples : List ℚ) (amb : ℤ),
        (setup samples amb).1.PumpStatus = Status.ON ∧
        ((setup samples amb).2).filter (fun w => w.pin == PUMP_PIN) = []) ∧
    (∀ (s : SysState) (f : Fault) (now : ℕ),
        (missionAbort s f now).1.PumpStatus = Status.OFF ∧
        ((missionAbort s f now).2.1).filter (fun w => w.pin == PUMP_PIN) =
          [⟨PUMP_PIN, Status.code Status.OFF⟩]) ∧
    (∀ (st : SysState) (inp : Inputs),
        ∀ w ∈ (systemStep st inp).2.1, w.pin = PUMP_PIN →
          w.val = Status.code Status.OFF) := by
  refine ⟨fun samples amb => ⟨rfl, rfl⟩, fun s f now => ⟨rfl, rfl⟩, ?_⟩
  intro st inp w hw hpin
  unfold systemStep at hw
  by_cases hh : st.halted.isSome
  · rw [if_pos hh] at hw
    simp at hw
  · rw [if_neg hh] at hw
    unfold loopPass at hw
    rcases foldl_phase_writes inp loopCallOrder _ w hw with h | h | h
    · simp at h
    · rw [hpin] at h
      exact absurd h (by decide)
    · exact h.2

lemma getTargetTemperature_halted (s : SysState) (r : List ℕ) :
    (getTargetTemperature s r).halted = s.halted := rfl

lemma getTemperature_halted (s : SysState) (x : ℚ) :
    (getTemperature s x).halted = s.halted := rfl

lemma updateLCD_halted (s : SysState) :
    (updateLCD s).halted = s.halted := rfl

lemma missionAbort_halted (s : SysState) (f : Fault) (now : ℕ) :
    (missionAbort s f now).1.halted = some f := rfl

lemma phaseRun_skip (inp : Inputs) (acc : SysState × List PinWrite × List Event)
    (p : Phase) (h : acc.1.halted.isSome) : phaseRun inp acc p = acc := by
  unfold phaseRun
  rw [if_pos h]

lemma phaseRun_safety_fault (inp : Inputs)
    (acc : SysState × List PinWrite × List Event) (f : Fault)
    (h : acc.1.halted.isSome = false)
    (hsc : (safetyCheck acc.1 inp.now inp.ambient).2 = some f) :
    phaseRun inp acc Phase.safety =
      ((missionAbort (safetyCheck acc.1 inp.now inp.ambient).1 f inp.now).1,
       acc.2.1 ++ (missionAbort (safetyCheck acc.1 inp.now inp.ambient).1 f inp.now).2.1,
       acc.2.2 ++ (missionAbort (safetyCheck acc.1 inp.now inp.ambient).1 f inp.now).2.2) := by
  unfold phaseRun
  rw [if_neg (by simp [h])]
  dsimp only
  rw [hsc]

lemma phaseRun_safety_ok (inp : Inputs)
    (acc : SysState × List PinWrite × List Event)
    (h : acc.1.halted.isSome = false)
    (hsc : (safetyCheck acc.1 inp.now inp.ambient).2 = none) :
    phaseRun inp acc Phase.safety =
      ((safetyCheck acc.1 inp.now inp.ambient).1, acc.2.1, acc.2.2) := by
  unfold phaseRun
  rw [if_neg (by simp [h])]
  dsimp only
  rw [hsc]

lemma phaseRun_setpoint (inp : Inputs)
    (acc : SysState × List PinWrite × List Event)
    (h : acc.1.halted.isSome = false) :
    phaseRun inp acc Phase.setpoint =
      (getTargetTemperature acc.1 inp.potReads, acc.2.1, acc.2.2) := by
  unfold phaseRun
  rw [if_neg (by simp [h])]

lemma phaseRun_temperature (inp : Inputs)
    (acc : SysState × List PinWrite × List Event)
    (h : acc.1.halted.isSome = false) :
    phaseRun inp acc Phase.temperature =
      (getTemperature acc.1 inp.liquidTemp, acc.2.1, acc.2.2) := by
  unfold phaseRun
  rw [if_neg (by simp [h])]

lemma phaseRun_heater (inp : Inputs)
    (acc : SysState × List PinWrite × List Event)
    (h : acc.1.halted.isSome = false) :
    phaseRun inp acc Phase.heater =
      ((controlHeater acc.1 inp.now).1, acc.2.1 ++ (controlHeater acc.1 inp.now).2,
       acc.2.2) := by
  unfold phaseRun
  rw [if_neg (by simp [h])]

lemma phaseRun_render (inp : Inputs)
    (acc : SysState × List PinWrite × List Event)
    (h : acc.1.halted.isSome = false) :
    phaseRun inp acc Phase.render =
      (updateLCD acc.1, acc.2.1, acc.2.2) := by
  unfold phaseRun
  rw [if_neg (by simp [h])]

lemma foldl_skip (inp : Inputs) (ps : List Phase)
    (acc : SysState × List PinWrite × List Event) (h : acc.1.halted.isSome) :
    ps.foldl (phaseRun inp) acc = acc := by
  induction ps with
  | nil => rfl
  | cons p ps ih => rw [List.foldl_cons, phaseRun_skip inp acc p h]; exact ih

lemma loopPass_abort (s : SysState) (inp : Inputs) (f : Fault)
    (hh : s.halted = none)
    (hsc : (safetyCheck { s with RunTime := u32 inp.now / 1000 / 60 }
      inp.now inp.ambient).2 = some f) :
    loopPass s inp =
      ((missionAbort (safetyCheck { s with RunTime := u32 inp.now / 1000 / 60 }
          inp.now inp.ambient).1 f inp.now).1,
       (missionAbort (safetyCheck { s with RunTime := u32 inp.now / 1000 / 60 }
          inp.now inp.ambient).1 f inp.now).2.1,
       (missionAbort (safetyCheck { s with RunTime := u32 inp.now / 1000 / 60 }
          inp.now inp.ambient).1 f inp.now).2.2) := by
  unfold loopPass loopCallOrder
  rw [List.foldl_cons,
    phaseRun_safety_fault inp
      ({ s with RunTime := u32 inp.now / 1000 / 60 },
        ([] : List PinWrite), ([] : List Event)) f (by simp [hh]) hsc,
    foldl_skip inp _ _ (by simp [missionAbort_halted])]
  simp only [List.nil_append]

lemma loopPass_no_fault (s : SysState) (inp : Inputs)
    (hh : s.halted = none)
    (hsc : (safetyCheck { s with RunTime := u32 inp.now / 1000 / 60 }
      inp.now inp.ambient).2 = none) :
    loopPass s inp =
      (updateLCD (controlHeater (getTemperature (getTargetTemperature
          (safetyCheck { s with RunTime := u32 inp.now / 1000 / 60 }
            inp.now inp.ambient).1 inp.potReads) inp.liquidTemp) inp.now).1,
       (controlHeater (getTemperature (getTargetTemperature
          (safetyCheck { s with RunTime := u32 inp.now / 1000 / 60 }
            inp.now inp.ambient).1 inp.potReads) inp.liquidTemp) inp.now).2,
       []) := by
  have h1 : (safetyCheck { s with RunTime := u32 inp.now / 1000 / 60 }
      inp.now inp.ambient).1.halted = none := by
    rw [safetyCheck_halted]
    simpa using hh
  unfold loopPass loopCallOrder
  rw [List.foldl_cons,
    phaseRun_safety_ok inp
      ({ s with RunTime := u32 inp.now / 1000 / 60 },
        ([] : List PinWrite), ([] : List Event)) (by simp [hh]) hsc]
  rw [List.foldl_cons,
    phaseRun_setpoint inp
      ((safetyCheck { s with RunTime := u32 inp.now / 1000 / 60 }
          inp.now inp.ambient).1, ([] : List PinWrite), ([] : List Event))
      (by simp [h1])]
  rw [List.foldl_cons,
    phaseRun_temperature inp
      (getTargetTemperature (safetyCheck { s with RunTime := u32 inp.now / 1000 / 60 }
          inp.now inp.ambient).1 inp.potReads, ([] : List PinWrite), ([] : List Event))
      (by simp [getTargetTemperature_halted, h1])]
  rw [List.foldl_cons,
    phaseRun_heater inp
      (getTemperature (getTargetTemperature
          (safetyCheck { s with RunTime := u32 inp.now / 1000 / 60 }
            inp.now inp.ambient).1 inp.potReads) inp.liquidTemp,
        ([] : List PinWrite), ([] : List Event))
      (by simp [getTemperature_halted, getTargetTemperature_halted, h1])]
  rw [List.foldl_cons,
    phaseRun_render inp
      ((controlHeater (getTemperature (getTargetTemperature
          (safetyCheck { s with RunTime := u32 inp.now / 1000 / 60 }
            inp.now inp.ambient).1 inp.potReads) inp.liquidTemp) inp.now).1,
        [] ++ (controlHeater (getTemperature (getTargetTemperature
          (safetyCheck { s with RunTime := u32 inp.now / 1000 / 60 }
            inp.now inp.ambient).1 inp.potReads) inp.liquidTemp) inp.now).2,
        ([] : List Event))
      (by simp [controlHeater_halted, getTemperature_halted,
        getTargetTemperature_halted, h1]),
    List.foldl_nil]
  simp only [List.nil_append]

/-- C6 witness: a tick that aborts (over-temperature) emits the pump-pin
write, and the theorem applied to that concrete write yields the OFF value. -/
theorem pump_writers_witness :
    (⟨PUMP_PIN, Status.code Status.OFF⟩ : PinWrite) ∈
      (systemStep { baseState with AverageTemp := 100 }
        { now := 200000, potReads := [], liquidTemp := 30, ambient := 20 }).2.1 ∧
    (⟨PUMP_PIN, Status.code Status.OFF⟩ : PinWrite).val = Status.code Status.OFF := by
  have h2 : (safetyCheck { ({ baseState with AverageTemp := 100 } : SysState) with
      RunTime := u32 200000 / 1000 / 60 } 200000 20).2 = some Fault.OverTemperature := by
    unfold safetyCheck safetyTail
    dsimp only
    rw [if_pos (show u32 200000 > u32 (baseState.TimeLastSafetyCheck + 120000) by
          norm_num [baseState, u32]),
      if_neg (show ¬ (baseState.PreviousHeaterStatus = baseState.HeaterStatus ∧
          baseState.HeaterStatus = Status.ON) by decide),
      if_neg (show ¬ baseState.HeaterStatus = Status.ON by decide),
      if_pos (show baseState.HeaterStatus = Status.OFF from rfl),
      if_neg (show ¬ u32 200000 / 1000 / 60 > baseState.MaxRunTime by
          norm_num [baseState, u32]),
      if_pos (show (100 : ℚ) > ((baseState.MaxTemp : ℤ) : ℚ) by norm_num [baseState])]
  have hmem : (⟨PUMP_PIN, Status.code Status.OFF⟩ : PinWrite) ∈
      (systemStep { baseState with AverageTemp := 100 }
        { now := 200000, potReads := [], liquidTemp := 30, ambient := 20 }).2.1 := by
    unfold systemStep
    rw [if_neg (by simp [baseState])]
    rw [loopPass_abort _ _ Fault.OverTemperature rfl h2]
    simp [missionAbort, changeHeaterStatus, changePumpStatus]
  exact ⟨hmem, pump_writers.2.2 { baseState with AverageTemp := 100 }
    { now := 200000, potReads := [], liquidTemp := 30, ambient := 20 }
    ⟨PUMP_PIN, Status.code Status.OFF⟩ hmem rfl⟩

lemma safetyCheck_clear (s : SysState) (now : ℕ) (amb : ℤ)
    (hg : u32 now > u32 (s.TimeLastSafetyCheck + 120000))
    (hc : ¬ (s.PreviousHeaterStatus = s.HeaterStatus ∧ s.HeaterStatus = Status.ON))
    (hoff : s.HeaterStatus = Status.OFF)
    (hrun : ¬ u32 now / 1000 / 60 > s.MaxRunTime)
    (hover : ¬ s.AverageTemp > (s.MaxTemp : ℚ))
    (hamb : ¬ amb > (40 : ℤ)) :
    (safetyCheck s now amb).2 = none := by
  unfold safetyCheck safetyTail
  dsimp only
  rw [if_pos hg, if_neg hc,
    if_neg (show ¬ s.HeaterStatus = Status.ON by simp [hoff]),
    if_pos hoff, if_neg hrun, if_neg hover, if_neg hamb]

lemma safetyCheck_overtemp (s : SysState) (now : ℕ) (amb : ℤ)
    (hg : u32 now > u32 (s.TimeLastSafetyCheck + 120000))
    (hc : ¬ (s.PreviousHeaterStatus = s.HeaterStatus ∧ s.HeaterStatus = Status.ON))
    (hoff : s.HeaterStatus = Status.OFF)
    (hrun : ¬ u32 now / 1000 / 60 > s.MaxRunTime)
    (hover : s.AverageTemp > (s.MaxTemp : ℚ)) :
    (safetyCheck s now amb).2 = some Fault.OverTemperature := by
  unfold safetyCheck safetyTail
  dsimp only
  rw [if_pos hg, if_neg hc,
    if_neg (show ¬ s.HeaterStatus = Status.ON by simp [hoff]),
    if_pos hoff, if_neg hrun, if_pos hover]

/-- C7 counterexample: the loop body calls the safety check first, not third
as the specification orders it; on a tick whose fresh sensor reading drags
the average above MaxTemp, the real order raises no fault (the check saw the
previous average), while the specified order would abort with
OverTemperature on the same tick. -/
theorem loop_order_counterexample :
    loopCallOrder ≠ specClaimedCallOrder ∧
    (loopPass baseState { now := 200000, potReads := List.replicate 10 512, liquidTemp := 1000, ambient := 20 }).1.halted = none ∧
    (loopPassSpecOrder baseState { now := 200000, potReads := List.replicate 10 512, liquidTemp := 1000, ambient := 20 }).1.halted = some Fault.OverTemperature := by
  refine ⟨by decide, ?_, ?_⟩
  · have h2 : (safetyCheck { baseState with RunTime := u32 200000 / 1000 / 60 }
        200000 20).2 = none :=
      safetyCheck_clear _ _ _ (by norm_num [baseState, u32]) (by decide) rfl
        (by norm_num [baseState, u32]) (by norm_num [baseState]) (by norm_num)
    rw [loopPass_no_fault baseState _ rfl h2]
    simp [updateLCD_halted, controlHeater_halted, getTemperature_halted,
      getTargetTemperature_halted, safetyCheck_halted, baseState]
  · have hsc2 : (safetyCheck (getTemperature (getTargetTemperature
        { baseState with RunTime := u32 200000 / 1000 / 60 }
        (List.replicate 10 512)) 1000) 200000 20).2 = some Fault.OverTemperature := by
      apply safetyCheck_overtemp
      · norm_num [getTemperature, getTargetTemperature, baseState, u32]
      · decide
      · rfl
      · norm_num [getTemperature, getTargetTemperature, baseState, u32]
      · norm_num [getTemperature, getTargetTemperature, baseState,
          NumberOfMeasurements, List.getD]
    unfold loopPassSpecOrder specClaimedCallOrder
    rw [List.foldl_cons,
      phaseRun_setpoint { now := 200000, potReads := List.replicate 10 512, liquidTemp := 1000, ambient := 20 }
        ({ baseState with RunTime := u32 200000 / 1000 / 60 },
          ([] : List PinWrite), ([] : List Event)) (by simp [baseState])]
    rw [List.foldl_cons,
      phaseRun_temperature { now := 200000, potReads := List.replicate 10 512, liquidTemp := 1000, ambient := 20 }
        (getTargetTemperature { baseState with RunTime := u32 200000 / 1000 / 60 }
          (List.replicate 10 512), ([] : List PinWrite), ([] : List Event))
        (by simp [getTargetTemperature_halted, baseState])]
    rw [List.foldl_cons,
      phaseRun_safety_fault { now := 200000, potReads := List.replicate 10 512, liquidTemp := 1000, ambient := 20 }
        (getTemperature (getTargetTemperature
            { baseState with RunTime := u32 200000 / 1000 / 60 }
            (List.replicate 10 512)) 1000, ([] : List PinWrite), ([] : List Event))
        Fault.OverTemperature
        (by simp [getTemperature_halted, getTargetTemperature_halted, baseState]) hsc2]
    rw [foldl_skip _ _ _ (by simp [missionAbort_halted])]
    simp [missionAbort_halted]

/-- C7 (amended): each tick of the control loop runs one full pass in the
order safety check (time-gated) first, then setpoint read, then
temperature read/filter, then heater control, then status render; in
particular whether a tick faults depends only on the pre-pass state and the
tick's clock and ambient reading — never on the setpoint or liquid
temperature sampled in the same tick. -/
theorem loop_safety_runs_first :
    loopCallOrder =
      [Phase.safety, Phase.setpoint, Phase.temperature, Phase.heater, Phase.render] ∧
    (∀ (s : SysState) (inp inp2 : Inputs), inp.now = inp2.now →
      inp.ambient = inp2.ambient →
      (loopPass s inp).1.halted = (loopPass s inp2).1.halted) := by
  refine ⟨rfl, ?_⟩
  intro s inp inp2 hn ha
  by_cases hh : s.halted.isSome
  · unfold loopPass loopCallOrder
    rw [foldl_skip inp _ _ (by simpa using hh), foldl_skip inp2 _ _ (by simpa using hh)]
  · have hno : s.halted = none := Option.not_isSome_iff_eq_none.mp hh
    rcases hsc : (safetyCheck { s with RunTime := u32 inp.now / 1000 / 60 }
        inp.now inp.ambient).2 with _ | f
    · have hsc2 : (safetyCheck { s with RunTime := u32 inp2.now / 1000 / 60 }
          inp2.now inp2.ambient).2 = none := by
        rw [← hn, ← ha]
        exact hsc
      rw [loopPass_no_fault s inp hno hsc, loopPass_no_fault s inp2 hno hsc2]
      simp [updateLCD_halted, controlHeater_halted, getTemperature_halted,
        getTargetTemperature_halted, safetyCheck_halted]
    · have hsc2 : (safetyCheck { s with RunTime := u32 inp2.now / 1000 / 60 }
          inp2.now inp2.ambient).2 = some f := by
        rw [← hn, ← ha]
        exact hsc
      rw [loopPass_abort s inp f hno hsc, loopPass_abort s inp2 f hno hsc2]
      simp [missionAbort_halted]

/-- C7 witness: ticks sharing clock and ambient reading but with different
potmeter and liquid-temperature inputs fault identically. -/
theorem loop_safety_runs_first_witness :
    (loopPass baseState { now := 200000, potReads := List.replicate 10 512, liquidTemp := 1000, ambient := 20 }).1.halted =
      (loopPass baseState { now := 200000, potReads := [], liquidTemp := 555, ambient := 20 }).1.halted :=
  loop_safety_runs_first.2 baseState
    { now := 200000, potReads := List.replicate 10 512, liquidTemp := 1000, ambient := 20 }
    { now := 200000, potReads := [], liquidTemp := 555, ambient := 20 } rfl rfl

/-- C1: mission abort forces the heater and pump relays OFF (the only two pin
writes it emits), shows the fixed "System halted" header with the
fault-specific code, emits the alert burst and enters the terminal halted
state; a halted system repeats exactly the alert burst on every later tick
with no pin write and no state change (it never returns to the control
loop), so after any tick that raises a fault the heater and pump stay OFF
and the halt screen stays up for all subsequent ticks. -/
theorem fault_shutdown_terminal :
    (∀ (s : SysState) (f : Fault) (now : ℕ),
        (missionAbort s f now).1.HeaterStatus = Status.OFF ∧
        (missionAbort s f now).1.PumpStatus = Status.OFF ∧
        (missionAbort s f now).2.1 =
          [⟨HEATER_PIN, Status.code Status.OFF⟩, ⟨PUMP_PIN, Status.code Status.OFF⟩] ∧
        (missionAbort s f now).1.lcdHalt = some ("System halted", f.message) ∧
        (missionAbort s f now).2.2 = alertBurst ∧
        (missionAbort s f now).1.halted = some f) ∧
    (∀ (t : SysState) (i : Inputs), t.halted.isSome →
        systemStep t i = (t, [], alertBurst)) ∧
    (∀ (t : SysState) (inps : List Inputs), t.halted.isSome →
        runSystem t inps = t) ∧
    (∀ (s : SysState) (i : Inputs), s.halted = none →
        (systemStep s i).1.halted.isSome →
        (systemStep s i).1.HeaterStatus = Status.OFF ∧
        (systemStep s i).1.PumpStatus = Status.OFF ∧
        ∃ g : Fault, (systemStep s i).1.halted = some g ∧
          (systemStep s i).1.lcdHalt = some ("System halted", g.message)) := by
  refine ⟨fun s f now => ⟨rfl, rfl, rfl, rfl, rfl, rfl⟩, ?_, ?_, ?_⟩
  · intro t i h
    unfold systemStep
    rw [if_pos h]
  · intro t inps h
    induction inps with
    | nil => rfl
    | cons i rest ih =>
      have hstep : systemStep t i = (t, [], alertBurst) := by
        unfold systemStep
        rw [if_pos h]
      simp only [runSystem, List.foldl_cons]
      rw [hstep]
      exact ih
  · intro s i hno hsome
    unfold systemStep at hsome ⊢
    rw [if_neg (by simp [hno])] at hsome ⊢
    rcases hsc : (safetyCheck { s with RunTime := u32 i.now / 1000 / 60 }
        i.now i.ambient).2 with _ | f
    · rw [loopPass_no_fault s i hno hsc] at hsome
      simp [updateLCD_halted, controlHeater_halted, getTemperature_halted,
        getTargetTemperature_halted, safetyCheck_halted, hno] at hsome
    · rw [loopPass_abort s i f hno hsc]
      exact ⟨rfl, rfl, f, rfl, rfl⟩

/-- C1 witness: from a concrete aborted state, one tick and a one-tick run
leave the state unchanged and emit only the alert burst. -/
theorem fault_shutdown_terminal_witness :
    systemStep (missionAbort baseState Fault.OverTemperature 7).1
        { now := 0, potReads := [], liquidTemp := 0, ambient := 0 } =
      ((missionAbort baseState Fault.OverTemperature 7).1, [], alertBurst) ∧
    runSystem (missionAbort baseState Fault.OverTemperature 7).1
        [{ now := 0, potReads := [], liquidTemp := 0, ambient := 0 }] =
      (missionAbort baseState Fault.OverTemperature 7).1 :=
  ⟨fault_shutdown_terminal.2.1 (missionAbort baseState Fault.OverTemperature 7).1
      { now := 0, potReads := [], liquidTemp := 0, ambient := 0 } rfl,
   fault_shutdown_terminal.2.2.1 (missionAbort baseState Fault.OverTemperature 7).1
      [{ now := 0, potReads := [], liquidTemp := 0, ambient := 0 }] rfl⟩
